import Mathlib

/-
Verification of the webrtcprivate transport (p2p/transport/webrtcprivate/transport.go).

The development shallowly embeds the transport's dial-side logic:
multiaddrs are lists of protocol codes, the signaling wire protocol is a
small message datatype, and the control flow of Dial / dialWithScope /
setupConnection is embedded as pure functions over an environment record
describing the outcome of each external call (stream opening, resource
reservation, the webrtc engine, the read loop).  Side effects that the
properties talk about (stream reset/close, memory reservation and release,
resource-scope release, closing of the peer connection) are tracked
explicitly in the result records.
-/

namespace WebRTCPrivate

/-! ## Multiaddr model

A multiaddr is modelled as the list of its components' protocol codes.
The two codes the transport inspects are P_CIRCUIT (290) and P_WEBRTC (280).
`Encapsulate` is list append; the nil multiaddr is the empty list. -/

def P_CIRCUIT : Nat := 290
def P_WEBRTC : Nat := 280

abbrev Multiaddr := List Nat

/-- Embedding of the `ma.ForEach` loop body of `CanDial`: the accumulator is
the `circuit` flag; the loop breaks (returning the value of `webrtc`) at the
first non-circuit component seen after a circuit component. An exhausted loop
leaves `webrtc = false`, so `circuit && webrtc` is false. -/
def canDialAux : List Nat → Bool → Bool
  | [], _ => false
  | c :: rest, circuit =>
    if c = P_CIRCUIT then canDialAux rest true
    else if circuit then decide (c = P_WEBRTC)
    else canDialAux rest false

/-- Embedding of `transport.CanDial` (transport.go lines 120-137). -/
def CanDial (addr : Multiaddr) : Bool := canDialAux addr false

/-- Predicate expressing the claim's wording for CanDial: the address
contains a p2p-circuit component immediately followed by a webrtc
component. -/
def hasCircuitThenWebRTC : List Nat → Bool
  | c1 :: c2 :: rest =>
    (decide (c1 = P_CIRCUIT) && decide (c2 = P_WEBRTC)) || hasCircuitThenWebRTC (c2 :: rest)
  | _ => false

/-- After the first circuit component: skip further circuit components, and
test whether the first non-circuit component exists and is webrtc. -/
def firstNonCircuitIsWebRTC : List Nat → Bool
  | [] => false
  | c :: rest =>
    if c = P_CIRCUIT then firstNonCircuitIsWebRTC rest
    else decide (c = P_WEBRTC)

/-- The amended CanDial specification: the address contains a circuit
component, and the first non-circuit component after the first circuit
component exists and is webrtc. -/
def canDialSpecAmended : List Nat → Bool
  | [] => false
  | c :: rest =>
    if c = P_CIRCUIT then firstNonCircuitIsWebRTC rest
    else canDialSpecAmended rest

/-- Embedding of `getRelayAddr` (transport.go lines 467-478): split the
address before the first webrtc component, drop that component, and
re-concatenate. A nil multiaddr is the empty list. -/
def getRelayAddr (addr : Multiaddr) : Multiaddr :=
  let first := addr.takeWhile (fun c => c != P_WEBRTC)
  match addr.dropWhile (fun c => c != P_WEBRTC) with
  | [] => first
  | _ :: tail => first ++ tail

/-- Spec-side definition for the refinement claim about `getRelayAddr`,
written from the claim's wording: remove exactly the first webrtc component,
preserving all components before and after it in order. -/
def removeFirstWebRTC : Multiaddr → Multiaddr
  | [] => []
  | c :: rest => if c = P_WEBRTC then rest else c :: removeFirstWebRTC rest

/-! ## Wire protocol and error model

`pb.Message` has an optional `Type` (SDP_OFFER, SDP_ANSWER, ICE_CANDIDATE)
and an optional string `Data`. Errors are an enumeration of the distinct
error returns of the Go code. -/

inductive MsgType
  | sdpOffer
  | sdpAnswer
  | iceCandidate
deriving DecidableEq

structure Message where
  typ : Option MsgType
  data : Option String
deriving DecidableEq

inductive Err
  | createPC
  | createDC
  | createOffer
  | writeOffer
  | setLocal
  | readAnswerFailed
  | invalidAnswerType
  | emptyAnswer
  | setRemote
  | deadlineExceeded
  | canceled
  | readFailed
  | invalidCandidateType
  | unmarshalCandidate
  | addCandidateFailed
  | writeCandidate
  | connEstablishFailed
  | localAddr
  | newConn
  | newStream
  | setService
  | reserveMemory
  | gaterRefused
  | connectFailed
  | resourceLimited
  | setPeer
  | invalidListenAddr
  | alreadyListening
deriving DecidableEq

def excOk {α : Type} : Except Err α → Bool
  | .ok _ => true
  | .error _ => false

instance {ε α : Type} [DecidableEq ε] [DecidableEq α] : DecidableEq (Except ε α) := fun a b =>
  match a, b with
  | .ok x, .ok y => if h : x = y then .isTrue (by rw [h]) else .isFalse (by simp [h])
  | .ok _, .error _ => .isFalse (by simp)
  | .error _, .ok _ => .isFalse (by simp)
  | .error x, .error y => if h : x = y then .isTrue (by rw [h]) else .isFalse (by simp [h])

/-! ## PeerConnection states and the connection-state channel

`OnConnectionStateChange` (transport.go lines 226-236) forwards only the
states Connected, Failed and Closed to the single-slot channel
`connectionState`; the non-blocking send keeps only the first such state. -/

inductive PCState
  | stateNew
  | connecting
  | connected
  | disconnected
  | failed
  | closed
deriving DecidableEq

def PCState.isTerminal : PCState → Bool
  | .connected | .failed | .closed => true
  | _ => false

/-- The value held by the single-slot `connectionState` channel after the
callback has observed the given sequence of state changes: the first state
belonging to the Connected/Failed/Closed filter; intermediate states are
never sent. -/
def connStateSignal (states : List PCState) : Option PCState :=
  states.find? PCState.isTerminal

/-! ## setupConnection (transport.go lines 208-403)

The environment records the outcome of each external call in program
order. The result records whether the peer connection was closed (the
`defer` at lines 213-217 closes it on every error path once it has been
created; on success it is handed to the resulting connection) and the
overall result. -/

/-- Validation of the first message read after sending the offer
(transport.go lines 306-311): the type must be present and equal to
SDP_ANSWER, and the payload must be present and non-empty. -/
def checkAnswer (m : Message) : Except Err String :=
  if m.typ ≠ some MsgType.sdpAnswer then .error .invalidAnswerType
  else if m.data = none ∨ m.data = some "" then .error .emptyAnswer
  else .ok (m.data.getD "")

/-- The event that wins the four-way select at transport.go lines 362-379:
context done (deadline or cancellation), a fatal read error, a fatal write
error, or a state delivered on the connection-state channel. -/
inductive RaceEvent
  | ctxDone (deadline : Bool)
  | readErr (e : Err)
  | writeErr (e : Err)
  | connState (s : PCState)
deriving DecidableEq

/-- Outcome of the select (transport.go lines 362-379): every branch except
a Connected state closes the peer connection and returns an error. -/
def raceOutcome : RaceEvent → Except Err Unit
  | .ctxDone true => .error .deadlineExceeded
  | .ctxDone false => .error .canceled
  | .readErr e => .error e
  | .writeErr e => .error e
  | .connState s => if s = PCState.connected then .ok () else .error .connEstablishFailed

structure SetupEnv where
  newPCOk : Bool
  createDCOk : Bool
  createOfferOk : Bool
  writeOfferOk : Bool
  setLocalOk : Bool
  answerRead : Except Err Message
  setRemoteOk : Bool
  raceEvent : RaceEvent
  localAddrOk : Bool
  newConnOk : Bool
deriving DecidableEq

structure SetupResult where
  pcClosed : Bool
  result : Except Err Unit
deriving DecidableEq

/-- Embedding of `setupConnection` (transport.go lines 208-403). The inner
chain mirrors the sequence of early returns; the deferred close at lines
213-217 makes `pcClosed` true exactly when a peer connection was created
and an error is returned. -/
def setupConnection (env : SetupEnv) : SetupResult :=
  if !env.newPCOk then ⟨false, .error .createPC⟩
  else
    let r : Except Err Unit :=
      if !env.createDCOk then .error .createDC
      else if !env.createOfferOk then .error .createOffer
      else if !env.writeOfferOk then .error .writeOffer
      else if !env.setLocalOk then .error .setLocal
      else
        match env.answerRead with
        | .error _ => .error .readAnswerFailed
        | .ok m =>
          match checkAnswer m with
          | .error e => .error e
          | .ok _ =>
            if !env.setRemoteOk then .error .setRemote
            else
              match raceOutcome env.raceEvent with
              | .error e => .error e
              | .ok _ =>
                if !env.localAddrOk then .error .localAddr
                else if !env.newConnOk then .error .newConn
                else .ok ()
    match r with
    | .error e => ⟨true, .error e⟩
    | .ok _ => ⟨false, .ok ()⟩

/-! ## dialWithScope (transport.go lines 170-206)

Tracks the final state of the signaling stream, the amounts of memory
reserved and released on the stream scope, and the overall result.
`Reset` aborts the stream in both directions; a graceful `Close` of an
already-reset stream does not undo the reset. -/

inductive StreamState
  | opened
  | closedGracefully
  | wasReset
deriving DecidableEq

def closeStream : StreamState → StreamState
  | .opened => .closedGracefully
  | s => s

def resetStream (_ : StreamState) : StreamState := .wasReset

def maxMsgSize : Nat := 4096

structure DWSEnv where
  newStreamOk : Bool
  setServiceOk : Bool
  reserveOk : Bool
  setup : SetupEnv
  gaterPresent : Bool
  gaterAccepts : Bool
deriving DecidableEq

structure DWSResult where
  streamOpened : Bool
  stream : Option StreamState
  reserved : Nat
  released : Nat
  pcClosed : Bool
  result : Except Err Unit
deriving DecidableEq

/-- Embedding of `dialWithScope` (transport.go lines 170-206). After the
memory reservation succeeds, two defers are armed: `ReleaseMemory
maxMsgSize` and `Close` of the stream; both run on every later exit. An
error from `setupConnection` and a gater refusal additionally `Reset` the
stream before the defers run. -/
def dialWithScope (env : DWSEnv) : DWSResult :=
  if !env.newStreamOk then ⟨false, none, 0, 0, false, .error .newStream⟩
  else if !env.setServiceOk then
    ⟨true, some (resetStream .opened), 0, 0, false, .error .setService⟩
  else if !env.reserveOk then
    ⟨true, some (resetStream .opened), 0, 0, false, .error .reserveMemory⟩
  else
    let su := setupConnection env.setup
    match su.result with
    | .error e =>
      ⟨true, some (closeStream (resetStream .opened)), 2 * maxMsgSize, maxMsgSize,
        su.pcClosed, .error e⟩
    | .ok _ =>
      if env.gaterPresent && !env.gaterAccepts then
        ⟨true, some (closeStream (resetStream .opened)), 2 * maxMsgSize, maxMsgSize,
          true, .error .gaterRefused⟩
      else
        ⟨true, some (closeStream .opened), 2 * maxMsgSize, maxMsgSize,
          su.pcClosed, .ok ()⟩

/-! ## Dial (transport.go lines 139-168)

Tracks whether the outbound connection-management scope was opened and how
many times `scope.Done()` was called before returning. -/

structure DialEnv where
  connectOk : Bool
  openConnOk : Bool
  setPeerOk : Bool
  dws : DWSEnv
deriving DecidableEq

structure DialResult where
  scopeOpened : Bool
  scopeDone : Nat
  result : Except Err Unit
deriving DecidableEq

/-- Embedding of `Dial` (transport.go lines 139-168): connect over the
relay, open the connection scope, tag the peer, then run `dialWithScope`;
only a `dialWithScope` failure triggers `scope.Done()`. -/
def Dial (env : DialEnv) : DialResult :=
  if !env.connectOk then ⟨false, 0, .error .connectFailed⟩
  else if !env.openConnOk then ⟨false, 0, .error .resourceLimited⟩
  else if !env.setPeerOk then ⟨true, 0, .error .setPeer⟩
  else
    match (dialWithScope env.dws).result with
    | .error e => ⟨true, 1, .error e⟩
    | .ok _ => ⟨true, 0, .ok ()⟩

/-! ## The candidate-reading goroutine (transport.go lines 324-360)

The input is the finite sequence of read results delivered before the
context ends; `parseOk` and `addOk` give the outcomes of
`json.Unmarshal` and `pc.AddICECandidate` on a given payload. The outcome
records the payloads forwarded to AddICECandidate, in order, and the error
sent on `readErr`, if any. -/

inductive ReadEvent
  | eof
  | readError
  | msg (m : Message)

structure ReaderOutcome where
  added : List String
  err : Option Err
deriving DecidableEq

def readCandidates (parseOk addOk : String → Bool) : List ReadEvent → ReaderOutcome
  | [] => ⟨[], none⟩
  | .eof :: _ => ⟨[], none⟩
  | .readError :: _ => ⟨[], some .readFailed⟩
  | .msg m :: rest =>
    if m.typ ≠ some MsgType.iceCandidate then ⟨[], some .invalidCandidateType⟩
    else
      match m.data with
      | none => readCandidates parseOk addOk rest
      | some "" => readCandidates parseOk addOk rest
      | some d =>
        if !parseOk d then ⟨[], some .unmarshalCandidate⟩
        else if !addOk d then ⟨[], some .addCandidateFailed⟩
        else
          let o := readCandidates parseOk addOk rest
          ⟨d :: o.added, o.err⟩

/-! ## Listen (transport.go lines 405-425)

The transport's mutable state is the optional registered listener
(identified by a number) and whether the signaling stream handler is
installed. -/

structure TransportState where
  listener : Option Nat
  handlerInstalled : Bool
deriving DecidableEq

def hasWebRTCProto (laddr : Multiaddr) : Bool := laddr.contains P_WEBRTC

/-- Embedding of `transport.Listen` (transport.go lines 405-425): reject a
listen address without a webrtc component, reject if a listener is already
registered, otherwise install the new listener and the signaling stream
handler. -/
def Listen (t : TransportState) (laddr : Multiaddr) (newId : Nat) :
    TransportState × Except Err Nat :=
  if !hasWebRTCProto laddr then (t, .error .invalidListenAddr)
  else
    match t.listener with
    | some _ => (t, .error .alreadyListening)
    | none => (⟨some newId, true⟩, .ok newId)

/-! ## Concrete environments used to evaluate the models -/

def goodAnswer : Message := ⟨some MsgType.sdpAnswer, some "sdp"⟩

/-- A fully successful dial-side negotiation environment. -/
def setupEnvOk : SetupEnv :=
  ⟨true, true, true, true, true, .ok goodAnswer, true, .connState PCState.connected, true, true⟩

/-- Like `setupEnvOk`, but the negotiation deadline fires during the
four-way race. -/
def timeoutSetupEnv : SetupEnv :=
  ⟨true, true, true, true, true, .ok goodAnswer, true, .ctxDone true, true, true⟩

/-- Like `setupEnvOk`, but the first message read after the offer is an
SDP_OFFER instead of an SDP_ANSWER. -/
def badAnswerSetupEnv : SetupEnv :=
  ⟨true, true, true, true, true, .ok ⟨some MsgType.sdpOffer, some "x"⟩, true,
    .connState PCState.connected, true, true⟩

/-- A fully successful `dialWithScope` environment (no gater). -/
def dwsEnvOk : DWSEnv := ⟨true, true, true, setupEnvOk, false, true⟩

/-- A `dialWithScope` environment whose negotiation fails with a stream
read error. -/
def dwsEnvReadFail : DWSEnv :=
  ⟨true, true, true,
    ⟨true, true, true, true, true, .error .readAnswerFailed, true,
      .connState PCState.connected, true, true⟩,
    false, true⟩

/-- A `dialWithScope` environment whose first read yields an invalid
answer message. -/
def badAnswerEnv : DWSEnv := ⟨true, true, true, badAnswerSetupEnv, false, true⟩

/-! ## Helper lemmas -/

theorem canDialAux_true_eq (l : List Nat) :
    canDialAux l true = firstNonCircuitIsWebRTC l := by
  induction l with
  | nil => rfl
  | cons c rest ih =>
    by_cases h : c = P_CIRCUIT
    · simp [canDialAux, firstNonCircuitIsWebRTC, h, ih]
    · simp [canDialAux, firstNonCircuitIsWebRTC, h]

theorem getRelayAddr_cons_webrtc (l : List Nat) :
    getRelayAddr (P_WEBRTC :: l) = l := by
  simp [getRelayAddr, List.takeWhile, List.dropWhile]

theorem getRelayAddr_cons_ne (c : Nat) (l : List Nat) (h : c ≠ P_WEBRTC) :
    getRelayAddr (c :: l) = c :: getRelayAddr l := by
  have hb : (c != P_WEBRTC) = true := by simpa using h
  cases hd : l.dropWhile (fun x => x != P_WEBRTC) with
  | nil => simp [getRelayAddr, List.takeWhile, List.dropWhile, hb, hd]
  | cons x tail => simp [getRelayAddr, List.takeWhile, List.dropWhile, hb, hd]

theorem getRelayAddr_eq_removeFirst (a : Multiaddr) :
    getRelayAddr a = removeFirstWebRTC a := by
  induction a with
  | nil => rfl
  | cons c rest ih =>
    by_cases h : c = P_WEBRTC
    · subst h
      simp [getRelayAddr_cons_webrtc, removeFirstWebRTC]
    · rw [getRelayAddr_cons_ne c rest h]
      simp [removeFirstWebRTC, h, ih]

theorem removeFirst_of_not_mem (a : Multiaddr) (h : P_WEBRTC ∉ a) :
    removeFirstWebRTC a = a := by
  induction a with
  | nil => rfl
  | cons c rest ih =>
    simp only [List.mem_cons, not_or] at h
    have hc : c ≠ P_WEBRTC := fun hc => h.1 hc.symm
    simp [removeFirstWebRTC, hc, ih h.2]

/-! ## Claim C3 -/

/-- Claim C3, counterexample: on the address
/p2p-circuit/tcp/p2p-circuit/webrtc (codes [290, 6, 290, 280]) `CanDial`
returns false although the address does contain a p2p-circuit component
immediately followed by a webrtc component; the claimed equivalence fails. -/
theorem canDial_adjacency_counterexample :
    ¬ (CanDial [290, 6, 290, 280] = true ↔
        hasCircuitThenWebRTC [290, 6, 290, 280] = true) := by
  decide

/-- Claim C3, amended: `CanDial addr` returns true iff the address contains
a p2p-circuit component and the first non-circuit component after the first
p2p-circuit component exists and is a webrtc component (the loop stops at
that component, so later circuit/webrtc pairs are never examined); any
other shape returns false. -/
theorem canDial_first_circuit_run (addr : Multiaddr) :
    CanDial addr = canDialSpecAmended addr := by
  induction addr with
  | nil => rfl
  | cons c rest ih =>
    by_cases h : c = P_CIRCUIT
    · simp [CanDial, canDialAux, canDialSpecAmended, h, canDialAux_true_eq]
    · simpa [CanDial, canDialAux, canDialSpecAmended, h] using ih

/-- Claim C3, witness: the amended equation evaluated on the
counterexample address and on a dialable address. -/
theorem canDial_first_circuit_run_witness :
    CanDial [290, 6, 290, 280] = canDialSpecAmended [290, 6, 290, 280] ∧
    CanDial [6, 290, 280] = canDialSpecAmended [6, 290, 280] :=
  ⟨canDial_first_circuit_run [290, 6, 290, 280],
   canDial_first_circuit_run [6, 290, 280]⟩

/-! ## Claim C9 -/

/-- Claim C9: for every multiaddr with no webrtc component, `getRelayAddr`
returns the address unchanged; for every multiaddr containing at least one
webrtc component, `getRelayAddr` removes exactly the first webrtc component
and preserves all components before and after it in their original order
(expressed by the spec-side function `removeFirstWebRTC`). -/
theorem getRelayAddr_removes_first_webrtc (a : Multiaddr) :
    (P_WEBRTC ∉ a → getRelayAddr a = a) ∧
    (P_WEBRTC ∈ a → getRelayAddr a = removeFirstWebRTC a) := by
  constructor
  · intro h
    rw [getRelayAddr_eq_removeFirst, removeFirst_of_not_mem a h]
  · intro _
    exact getRelayAddr_eq_removeFirst a

/-- Claim C9, witness: both branches evaluated on concrete addresses
(/ip4/p2p-circuit/webrtc/p2p and /ip4/tcp). -/
theorem getRelayAddr_removes_first_webrtc_witness :
    getRelayAddr [4, 290, 280, 421] = removeFirstWebRTC [4, 290, 280, 421] ∧
    getRelayAddr [4, 6] = [4, 6] :=
  ⟨(getRelayAddr_removes_first_webrtc [4, 290, 280, 421]).2 (by decide),
   (getRelayAddr_removes_first_webrtc [4, 6]).1 (by decide)⟩

/-! ## Claim C4 -/

/-- Claim C4, counterexample: the dialable address
/p2p-circuit/webrtc/p2p (codes [290, 280, 421]) does not round-trip:
`getRelayAddr` removes the webrtc component from the middle, but
encapsulation appends it at the end, yielding [290, 421, 280]. -/
theorem relay_addr_roundtrip_counterexample :
    CanDial [290, 280, 421] = true ∧
    getRelayAddr [290, 280, 421] ++ [P_WEBRTC] ≠ [290, 280, 421] := by
  decide

/-- Claim C4, amended: for every dialable multiaddr whose webrtc component
is its last component and which contains no other webrtc component,
encapsulating `getRelayAddr` of it with the webrtc marker reproduces the
address exactly. -/
theorem relay_addr_roundtrip_amended (b : List Nat)
    (_hdial : CanDial (b ++ [P_WEBRTC]) = true)
    (hfree : ∀ c ∈ b, c ≠ P_WEBRTC) :
    getRelayAddr (b ++ [P_WEBRTC]) ++ [P_WEBRTC] = b ++ [P_WEBRTC] := by
  clear _hdial
  induction b with
  | nil => rfl
  | cons c rest ih =>
    have hc : c ≠ P_WEBRTC := hfree c (List.mem_cons_self c rest)
    have hrest : ∀ x ∈ rest, x ≠ P_WEBRTC := fun x hx => hfree x (List.mem_cons_of_mem c hx)
    rw [List.cons_append, getRelayAddr_cons_ne c (rest ++ [P_WEBRTC]) hc,
      List.cons_append, ih hrest]

/-- Claim C4, witness: the amended round-trip on the address
/p2p-circuit/webrtc. -/
theorem relay_addr_roundtrip_witness :
    getRelayAddr ([290] ++ [P_WEBRTC]) ++ [P_WEBRTC] = [290] ++ [P_WEBRTC] :=
  relay_addr_roundtrip_amended [290] (by decide) (by decide)

/-! ## Claim C1 -/

/-- Claim C1: after the offer is sent, if the first message read from the
signaling stream is not of type SDP_ANSWER (including a missing type) or
has a missing or empty payload, then `setupConnection` returns an error
without producing a connection, `dialWithScope` returns an error, and the
signaling stream ends up reset, not gracefully closed. -/
theorem dial_invalid_answer (env : DWSEnv) (m : Message)
    (hs : env.newStreamOk = true) (hv : env.setServiceOk = true)
    (hr : env.reserveOk = true)
    (h1 : env.setup.newPCOk = true) (h2 : env.setup.createDCOk = true)
    (h3 : env.setup.createOfferOk = true) (h4 : env.setup.writeOfferOk = true)
    (h5 : env.setup.setLocalOk = true) (hm : env.setup.answerRead = .ok m)
    (hbad : m.typ ≠ some MsgType.sdpAnswer ∨ m.data = none ∨ m.data = some "") :
    excOk (setupConnection env.setup).result = false ∧
    excOk (dialWithScope env).result = false ∧
    (dialWithScope env).stream = some StreamState.wasReset := by
  have hca : ∃ e, checkAnswer m = Except.error e := by
    rcases hbad with h | h | h
    · exact ⟨.invalidAnswerType, by simp [checkAnswer, h]⟩
    · by_cases ht : m.typ = some MsgType.sdpAnswer
      · exact ⟨.emptyAnswer, by simp [checkAnswer, ht, h]⟩
      · exact ⟨.invalidAnswerType, by simp [checkAnswer, ht]⟩
    · by_cases ht : m.typ = some MsgType.sdpAnswer
      · exact ⟨.emptyAnswer, by simp [checkAnswer, ht, h]⟩
      · exact ⟨.invalidAnswerType, by simp [checkAnswer, ht]⟩
  obtain ⟨e, hca⟩ := hca
  have hsu : setupConnection env.setup = ⟨true, Except.error e⟩ := by
    simp [setupConnection, h1, h2, h3, h4, h5, hm, hca]
  refine ⟨?_, ?_, ?_⟩ <;>
    simp [dialWithScope, hs, hv, hr, hsu, excOk, closeStream, resetStream]

/-- Claim C1, witness: the concrete environment in which the first reply
message has type SDP_OFFER. -/
theorem dial_invalid_answer_witness :
    excOk (setupConnection badAnswerEnv.setup).result = false ∧
    excOk (dialWithScope badAnswerEnv).result = false ∧
    (dialWithScope badAnswerEnv).stream = some StreamState.wasReset :=
  dial_invalid_answer badAnswerEnv ⟨some MsgType.sdpOffer, some "x"⟩
    rfl rfl rfl rfl rfl rfl rfl rfl rfl (Or.inl (by decide))

/-! ## Claim C2 -/

/-- Claim C2 is contradicted by the code: when `scope.SetPeer` fails after
the outbound connection scope has been opened, `Dial` returns the error
without calling `scope.Done()` (zero releases, not one). For every other
post-open failure (a `dialWithScope` error) `Done` is called exactly once,
and on success it is called zero times. -/
theorem dial_setpeer_scope_leak :
    (Dial ⟨true, true, false, dwsEnvOk⟩).scopeOpened = true ∧
    (Dial ⟨true, true, false, dwsEnvOk⟩).scopeDone = 0 ∧
    excOk (Dial ⟨true, true, false, dwsEnvOk⟩).result = false ∧
    (Dial ⟨true, true, true, dwsEnvReadFail⟩).scopeDone = 1 ∧
    (Dial ⟨true, true, true, dwsEnvOk⟩).scopeDone = 0 := by
  decide

/-! ## Claim C5 -/

/-- Claim C5: if the negotiation deadline elapses before the endpoint
reaches the Connected state (the race is won by the context's deadline,
not by a read or write error), `setupConnection` closes the peer
connection and returns the deadline-exceeded error. -/
theorem setup_timeout_closes_pc (env : SetupEnv) (m : Message)
    (h1 : env.newPCOk = true) (h2 : env.createDCOk = true)
    (h3 : env.createOfferOk = true) (h4 : env.writeOfferOk = true)
    (h5 : env.setLocalOk = true) (hm : env.answerRead = .ok m)
    (hca : excOk (checkAnswer m) = true) (h8 : env.setRemoteOk = true)
    (h9 : env.raceEvent = .ctxDone true) :
    setupConnection env = ⟨true, Except.error Err.deadlineExceeded⟩ := by
  cases hc : checkAnswer m with
  | error e => rw [hc] at hca; simp [excOk] at hca
  | ok s =>
    simp [setupConnection, h1, h2, h3, h4, h5, hm, hc, h8, h9, raceOutcome]

/-- Claim C5, witness: the deadline fires in an otherwise successful
negotiation environment. -/
theorem setup_timeout_closes_pc_witness :
    setupConnection timeoutSetupEnv = ⟨true, Except.error Err.deadlineExceeded⟩ :=
  setup_timeout_closes_pc timeoutSetupEnv goodAnswer
    rfl rfl rfl rfl rfl rfl (by decide) rfl rfl

/-! ## Claim C6 -/

/-- Claim C6: during candidate exchange, a message of type ICE_CANDIDATE
whose payload is missing or empty is a no-op: the read loop's outcome on
the remaining messages is unchanged — nothing is forwarded to
AddICECandidate, no error is produced, and reading continues. -/
theorem empty_candidate_noop (parseOk addOk : String → Bool) (m : Message)
    (rest : List ReadEvent) (ht : m.typ = some MsgType.iceCandidate)
    (hd : m.data = none ∨ m.data = some "") :
    readCandidates parseOk addOk (ReadEvent.msg m :: rest) =
      readCandidates parseOk addOk rest := by
  obtain ⟨typ, data⟩ := m
  simp only [Message.typ] at ht
  simp only [Message.data] at hd
  subst ht
  rcases hd with hd | hd <;> subst hd <;> simp [readCandidates]

/-- Claim C6, witness: an empty-payload candidate message followed by a
normal candidate message. -/
theorem empty_candidate_noop_witness :
    readCandidates (fun _ => true) (fun _ => true)
        [ReadEvent.msg ⟨some MsgType.iceCandidate, some ""⟩,
          ReadEvent.msg ⟨some MsgType.iceCandidate, some "c1"⟩] =
      readCandidates (fun _ => true) (fun _ => true)
        [ReadEvent.msg ⟨some MsgType.iceCandidate, some "c1"⟩] :=
  empty_candidate_noop (fun _ => true) (fun _ => true)
    ⟨some MsgType.iceCandidate, some ""⟩
    [ReadEvent.msg ⟨some MsgType.iceCandidate, some "c1"⟩] rfl (Or.inr rfl)

/-! ## Claim C7 -/

/-- Claim C7 is half right and half contradicted by the code: before any
signaling wire I/O `dialWithScope` reserves 2 * maxMsgSize bytes on the
stream scope, but the deferred release only returns maxMsgSize bytes, on
the success path and on every failure path after the reservation alike —
half of the reserved signaling memory is never explicitly released. -/
theorem signaling_memory_release_mismatch :
    (dialWithScope dwsEnvOk).reserved = 2 * maxMsgSize ∧
    (dialWithScope dwsEnvOk).released = maxMsgSize ∧
    (dialWithScope dwsEnvReadFail).reserved = 2 * maxMsgSize ∧
    (dialWithScope dwsEnvReadFail).released = maxMsgSize ∧
    maxMsgSize ≠ 2 * maxMsgSize := by
  decide

/-! ## Claim C8 -/

/-- Claim C8, counterexample: with no listener registered but a listen
address lacking a webrtc component, `Listen` returns an error and installs
neither a listener nor the stream handler, contradicting the claim that
whenever no listener is registered `Listen` installs the new listener. -/
theorem listen_no_listener_counterexample :
    ¬ ((Listen ⟨none, false⟩ [6] 5).1.listener = some 5 ∧
        (Listen ⟨none, false⟩ [6] 5).1.handlerInstalled = true) ∧
    (Listen ⟨none, false⟩ [6] 5).2 = Except.error Err.invalidListenAddr := by
  decide

/-- Claim C8, amended: if a listener is already registered, `Listen`
returns an error and leaves the transport state unchanged; if no listener
is registered and the listen address contains a webrtc component, `Listen`
installs the new listener and the signaling stream handler. -/
theorem listen_single_listener_amended (t : TransportState) (laddr : Multiaddr)
    (i : Nat) :
    (t.listener ≠ none →
      excOk (Listen t laddr i).2 = false ∧ (Listen t laddr i).1 = t) ∧
    (t.listener = none → hasWebRTCProto laddr = true →
      (Listen t laddr i).1.listener = some i ∧
      (Listen t laddr i).1.handlerInstalled = true ∧
      (Listen t laddr i).2 = Except.ok i) := by
  obtain ⟨lst, hi⟩ := t
  constructor
  · intro h
    cases lst with
    | none => simp at h
    | some l =>
      by_cases hw : hasWebRTCProto laddr <;> simp [Listen, hw, excOk]
  · intro h hw
    cases lst with
    | none => simp [Listen, hw]
    | some l => simp at h

/-- Claim C8, witness: a registered listener is left unchanged, and a
fresh transport with a valid address installs the listener and handler. -/
theorem listen_single_listener_witness :
    (excOk (Listen ⟨some 3, true⟩ [P_WEBRTC] 7).2 = false ∧
      (Listen ⟨some 3, true⟩ [P_WEBRTC] 7).1 = ⟨some 3, true⟩) ∧
    ((Listen ⟨none, false⟩ [P_WEBRTC] 7).1.listener = some 7 ∧
      (Listen ⟨none, false⟩ [P_WEBRTC] 7).1.handlerInstalled = true ∧
      (Listen ⟨none, false⟩ [P_WEBRTC] 7).2 = Except.ok 7) :=
  ⟨(listen_single_listener_amended ⟨some 3, true⟩ [P_WEBRTC] 7).1 (by decide),
    (listen_single_listener_amended ⟨none, false⟩ [P_WEBRTC] 7).2 rfl (by decide)⟩

/-! ## Claim C10 -/

/-- Claim C10: only terminal endpoint states are ever signalled on the
connection-state channel — whatever sequence of state-change callbacks
occurs, the value the race can receive from the channel is Connected,
Failed or Closed, and a sequence containing only intermediate states never
delivers a value (an intermediate state never terminates the
negotiation). -/
theorem connState_terminal_only (states : List PCState) :
    (∀ s, connStateSignal states = some s →
      s = PCState.connected ∨ s = PCState.failed ∨ s = PCState.closed) ∧
    ((∀ s ∈ states, s.isTerminal = false) → connStateSignal states = none) := by
  constructor
  · intro s hs
    have hp : PCState.isTerminal s = true :=
      List.find?_some (by simpa [connStateSignal] using hs)
    cases s <;> simp_all [PCState.isTerminal]
  · intro h
    rw [connStateSignal, List.find?_eq_none]
    intro x hx
    simp [h x hx]

/-- Claim C10, witness: a callback sequence ending in Failed delivers a
terminal state, and a purely intermediate sequence delivers nothing. -/
theorem connState_terminal_only_witness :
    (PCState.failed = PCState.connected ∨ PCState.failed = PCState.failed ∨
      PCState.failed = PCState.closed) ∧
    connStateSignal [PCState.stateNew, PCState.connecting] = none :=
  ⟨(connState_terminal_only [PCState.stateNew, PCState.failed]).1
      PCState.failed (by decide),
    (connState_terminal_only [PCState.stateNew, PCState.connecting]).2 (by decide)⟩

end WebRTCPrivate
